import Mathlib

/-!
Verification of the thuai-8 rust agent's connection/protocol layer.

Shallow embedding of `src/agent/model.rs`, `src/agent/connection.rs` and
`src/agent.rs`.  Rust `f64` is modelled by `ℚ` (the claims under study only
use the ordered-field structure of the comparisons, at small exact values),
`u32` by `Nat`, `String` by `String`.  JSON text frames produced by
`serde_json` are modelled by a JSON value tree that keeps object field
order, so field presence, order and token strings are captured exactly;
`serde_json` keeps Rust integers and floats apart, which the tree mirrors
with separate `nat` and `num` constructors.
-/

namespace ThuaiAgent

/-- Model of Rust `f64` (see file comment). -/
abbrev F64 := ℚ

/-- `const EPSILON: f64 = 1e-6;` from `model.rs`. -/
def EPSILON : F64 := 1 / 1000000

/-- `Position<T>` from `model.rs`: an `(x, y)` pair with an angle. -/
structure Position (T : Type) where
  x : T
  y : T
  angle : F64
  deriving Repr, DecidableEq

/-- `impl PartialEq for Position<f64>` from `model.rs`:
`(self.x - other.x).abs() < EPSILON && (self.y - other.y).abs() < EPSILON`. -/
def Position.eqF (p q : Position F64) : Bool :=
  decide (|p.x - q.x| < EPSILON) && decide (|p.y - q.y| < EPSILON)

/-- `impl PartialEq for Position<i32>` from `model.rs`. -/
def Position.eqI (p q : Position Int) : Bool :=
  p.x == q.x && p.y == q.y

/-- `enum MoveDirection` from `model.rs`. -/
inductive MoveDirection where
  | Back
  | Forth
  deriving Repr, DecidableEq

/-- serde rename tokens of `MoveDirection`. -/
def MoveDirection.wire : MoveDirection → String
  | .Back => "BACK"
  | .Forth => "FORTH"

/-- `enum TurnDirection` from `model.rs`. -/
inductive TurnDirection where
  | Clockwise
  | CounterClockwise
  deriving Repr, DecidableEq

/-- serde rename tokens of `TurnDirection`. -/
def TurnDirection.wire : TurnDirection → String
  | .Clockwise => "CLOCKWISE"
  | .CounterClockwise => "COUNTER_CLOCKWISE"

/-- `enum RequestType` from `model.rs` (`TheSelf` renames to `SELF`). -/
inductive RequestType where
  | TheSelf
  | Opponent
  deriving Repr, DecidableEq

/-- serde rename tokens of `RequestType`. -/
def RequestType.wire : RequestType → String
  | .TheSelf => "SELF"
  | .Opponent => "OPPONENT"

/-- `enum BuffKind` from `model.rs`, variants in declaration order. -/
inductive BuffKind where
  | BlackOut
  | SpeedUp
  | Flash
  | Destroy
  | Construct
  | Trap
  | Missile
  | Kamui
  | BulletCount
  | BulletSpeed
  | AttackSpeed
  | Laser
  | Damage
  | AntiArmor
  | Armor
  | Reflect
  | Dodge
  | Knife
  | Gravity
  deriving Repr, DecidableEq

/-- serde rename tokens of `BuffKind`. -/
def BuffKind.wire : BuffKind → String
  | .BlackOut => "BLACK_OUT"
  | .SpeedUp => "SPEED_UP"
  | .Flash => "FLASH"
  | .Destroy => "DESTROY"
  | .Construct => "CONSTRUCT"
  | .Trap => "TRAP"
  | .Missile => "MISSILE"
  | .Kamui => "KAMUI"
  | .BulletCount => "BULLET_COUNT"
  | .BulletSpeed => "BULLET_SPEED"
  | .AttackSpeed => "ATTACK_SPEED"
  | .Laser => "LASER"
  | .Damage => "DAMAGE"
  | .AntiArmor => "ANTI_ARMOR"
  | .Armor => "ARMOR"
  | .Reflect => "REFLECT"
  | .Dodge => "DODGE"
  | .Knife => "KNIFE"
  | .Gravity => "GRAVITY"

/-- Rust variant names of `BuffKind` (the in-memory names, not wire tokens). -/
def BuffKind.variantName : BuffKind → String
  | .BlackOut => "BlackOut"
  | .SpeedUp => "SpeedUp"
  | .Flash => "Flash"
  | .Destroy => "Destroy"
  | .Construct => "Construct"
  | .Trap => "Trap"
  | .Missile => "Missile"
  | .Kamui => "Kamui"
  | .BulletCount => "BulletCount"
  | .BulletSpeed => "BulletSpeed"
  | .AttackSpeed => "AttackSpeed"
  | .Laser => "Laser"
  | .Damage => "Damage"
  | .AntiArmor => "AntiArmor"
  | .Armor => "Armor"
  | .Reflect => "Reflect"
  | .Dodge => "Dodge"
  | .Knife => "Knife"
  | .Gravity => "Gravity"

/-- Rust discriminant of `BuffKind` (`self as u8`): declaration order. -/
def BuffKind.disc : BuffKind → Nat
  | .BlackOut => 0
  | .SpeedUp => 1
  | .Flash => 2
  | .Destroy => 3
  | .Construct => 4
  | .Trap => 5
  | .Missile => 6
  | .Kamui => 7
  | .BulletCount => 8
  | .BulletSpeed => 9
  | .AttackSpeed => 10
  | .Laser => 11
  | .Damage => 12
  | .AntiArmor => 13
  | .Armor => 14
  | .Reflect => 15
  | .Dodge => 16
  | .Knife => 17
  | .Gravity => 18

/-- `enum SkillKind` from `model.rs`, variants in declaration order. -/
inductive SkillKind where
  | BlackOut
  | SpeedUp
  | Flash
  | Destroy
  | Construct
  | Trap
  | Missile
  | Kamui
  deriving Repr, DecidableEq

/-- serde rename tokens of `SkillKind`. -/
def SkillKind.wire : SkillKind → String
  | .BlackOut => "BLACK_OUT"
  | .SpeedUp => "SPEED_UP"
  | .Flash => "FLASH"
  | .Destroy => "DESTROY"
  | .Construct => "CONSTRUCT"
  | .Trap => "TRAP"
  | .Missile => "MISSILE"
  | .Kamui => "KAMUI"

/-- Rust variant names of `SkillKind`. -/
def SkillKind.variantName : SkillKind → String
  | .BlackOut => "BlackOut"
  | .SpeedUp => "SpeedUp"
  | .Flash => "Flash"
  | .Destroy => "Destroy"
  | .Construct => "Construct"
  | .Trap => "Trap"
  | .Missile => "Missile"
  | .Kamui => "Kamui"

/-- Rust discriminant of `SkillKind` (`self as u8`): declaration order. -/
def SkillKind.disc : SkillKind → Nat
  | .BlackOut => 0
  | .SpeedUp => 1
  | .Flash => 2
  | .Destroy => 3
  | .Construct => 4
  | .Trap => 5
  | .Missile => 6
  | .Kamui => 7

/-- `impl PartialEq<SkillKind> for BuffKind` from `model.rs`:
`other.clone() as u8 == self.clone() as u8`. -/
def BuffKind.eqSkill (b : BuffKind) (s : SkillKind) : Bool :=
  s.disc == b.disc

/-- JSON value tree standing for the text frames `serde_json` produces.
Objects keep field order; integers (`nat`) and floats (`num`) are kept
apart, as `serde_json::Value::Number` does. -/
inductive Json where
  | str : String → Json
  | num : F64 → Json
  | nat : Nat → Json
  | bool : Bool → Json
  | obj : List (String × Json) → Json

/-- Field names of a JSON object, in emission order. -/
def Json.objKeys : Json → List String
  | .obj l => l.map Prod.fst
  | _ => []

/-- First value bound to field `k` of a JSON object, if any. -/
def Json.lookup : Json → String → Option Json
  | .obj l, k => go l k
  | _, _ => none
where
  go : List (String × Json) → String → Option Json
    | [], _ => none
    | (k0, v) :: rest, k => if k0 = k then some v else go rest k

/-- `enum PerformMessage` from `connection.rs`: the outbound command values,
fields in declaration order (`skill_name` renames to `skillName`,
`buff_name` to `buffName`). -/
inductive PerformMessage where
  | PerformMove (token : String) (direction : MoveDirection) (distance : F64)
  | PerformTurn (token : String) (direction : TurnDirection) (angle : Nat)
  | PerformAttack (token : String)
  | PerformSkill (token : String) (skill_name : SkillKind)
  | PerformSelect (token : String) (buff_name : BuffKind)
  | GetPlayerInfo (token : String) (request : RequestType)
  | GetEnvironmentInfo (token : String)
  | GetGameStatistics (token : String)
  | GetAvailableBuffs (token : String)
  deriving Repr, DecidableEq

/-- The serde `messageType` tag of each `PerformMessage` variant
(`#[serde(tag = "messageType")]` with per-variant renames). -/
def PerformMessage.discriminant : PerformMessage → String
  | .PerformMove .. => "PERFORM_MOVE"
  | .PerformTurn .. => "PERFORM_TURN"
  | .PerformAttack .. => "PERFORM_ATTACK"
  | .PerformSkill .. => "PERFORM_SKILL"
  | .PerformSelect .. => "PERFORM_SELECT"
  | .GetPlayerInfo .. => "GET_PLAYER_INFO"
  | .GetEnvironmentInfo .. => "GET_ENVIRONMENT_INFO"
  | .GetGameStatistics .. => "GET_GAME_STATISTICS"
  | .GetAvailableBuffs .. => "GET_AVAILABLE_BUFFS"

/-- Serialization of `PerformMessage` as `serde_json` performs it for the
internally tagged enum of `connection.rs`: the `messageType` tag first,
then the variant's fields in declaration order, enum-valued fields as
their fixed wire strings. -/
def encodePerform : PerformMessage → Json
  | .PerformMove token direction distance =>
      .obj [("messageType", .str "PERFORM_MOVE"), ("token", .str token),
            ("direction", .str direction.wire), ("distance", .num distance)]
  | .PerformTurn token direction angle =>
      .obj [("messageType", .str "PERFORM_TURN"), ("token", .str token),
            ("direction", .str direction.wire), ("angle", .nat angle)]
  | .PerformAttack token =>
      .obj [("messageType", .str "PERFORM_ATTACK"), ("token", .str token)]
  | .PerformSkill token skill_name =>
      .obj [("messageType", .str "PERFORM_SKILL"), ("token", .str token),
            ("skillName", .str skill_name.wire)]
  | .PerformSelect token buff_name =>
      .obj [("messageType", .str "PERFORM_SELECT"), ("token", .str token),
            ("buffName", .str buff_name.wire)]
  | .GetPlayerInfo token request =>
      .obj [("messageType", .str "GET_PLAYER_INFO"), ("token", .str token),
            ("request", .str request.wire)]
  | .GetEnvironmentInfo token =>
      .obj [("messageType", .str "GET_ENVIRONMENT_INFO"), ("token", .str token)]
  | .GetGameStatistics token =>
      .obj [("messageType", .str "GET_GAME_STATISTICS"), ("token", .str token)]
  | .GetAvailableBuffs token =>
      .obj [("messageType", .str "GET_AVAILABLE_BUFFS"), ("token", .str token)]

/-- Inverse of `MoveDirection.wire`. -/
def wireToMoveDirection : String → Option MoveDirection
  | "BACK" => some .Back
  | "FORTH" => some .Forth
  | _ => none

/-- Inverse of `TurnDirection.wire`. -/
def wireToTurnDirection : String → Option TurnDirection
  | "CLOCKWISE" => some .Clockwise
  | "COUNTER_CLOCKWISE" => some .CounterClockwise
  | _ => none

/-- Inverse of `RequestType.wire`. -/
def wireToRequestType : String → Option RequestType
  | "SELF" => some .TheSelf
  | "OPPONENT" => some .Opponent
  | _ => none

/-- Inverse of `SkillKind.wire`. -/
def wireToSkillKind : String → Option SkillKind
  | "BLACK_OUT" => some .BlackOut
  | "SPEED_UP" => some .SpeedUp
  | "FLASH" => some .Flash
  | "DESTROY" => some .Destroy
  | "CONSTRUCT" => some .Construct
  | "TRAP" => some .Trap
  | "MISSILE" => some .Missile
  | "KAMUI" => some .Kamui
  | _ => none

/-- Inverse of `BuffKind.wire`. -/
def wireToBuffKind : String → Option BuffKind
  | "BLACK_OUT" => some .BlackOut
  | "SPEED_UP" => some .SpeedUp
  | "FLASH" => some .Flash
  | "DESTROY" => some .Destroy
  | "CONSTRUCT" => some .Construct
  | "TRAP" => some .Trap
  | "MISSILE" => some .Missile
  | "KAMUI" => some .Kamui
  | "BULLET_COUNT" => some .BulletCount
  | "BULLET_SPEED" => some .BulletSpeed
  | "ATTACK_SPEED" => some .AttackSpeed
  | "LASER" => some .Laser
  | "DAMAGE" => some .Damage
  | "ANTI_ARMOR" => some .AntiArmor
  | "ARMOR" => some .Armor
  | "REFLECT" => some .Reflect
  | "DODGE" => some .Dodge
  | "KNIFE" => some .Knife
  | "GRAVITY" => some .Gravity
  | _ => none

/-- Modelled from the spec: the repository defines no decoder for outbound
command frames (`PerformMessage` derives only `Serialize`); this decoder
follows the schema table of spec sections 4.2 and 6: the `messageType`
discriminant selects the kind, every kind carries `token`, and the
kind-specific fields are read under their fixed names with enum fields
mapped back from their fixed wire tokens. -/
def decodePerform (j : Json) : Option PerformMessage :=
  match j.lookup "messageType" with
  | some (.str "PERFORM_MOVE") =>
      match j.lookup "token", j.lookup "direction", j.lookup "distance" with
      | some (.str t), some (.str d), some (.num dist) =>
          (wireToMoveDirection d).map fun dir => .PerformMove t dir dist
      | _, _, _ => none
  | some (.str "PERFORM_TURN") =>
      match j.lookup "token", j.lookup "direction", j.lookup "angle" with
      | some (.str t), some (.str d), some (.nat a) =>
          (wireToTurnDirection d).map fun dir => .PerformTurn t dir a
      | _, _, _ => none
  | some (.str "PERFORM_ATTACK") =>
      match j.lookup "token" with
      | some (.str t) => some (.PerformAttack t)
      | _ => none
  | some (.str "PERFORM_SKILL") =>
      match j.lookup "token", j.lookup "skillName" with
      | some (.str t), some (.str s) =>
          (wireToSkillKind s).map fun sk => .PerformSkill t sk
      | _, _ => none
  | some (.str "PERFORM_SELECT") =>
      match j.lookup "token", j.lookup "buffName" with
      | some (.str t), some (.str b) =>
          (wireToBuffKind b).map fun bf => .PerformSelect t bf
      | _, _ => none
  | some (.str "GET_PLAYER_INFO") =>
      match j.lookup "token", j.lookup "request" with
      | some (.str t), some (.str r) =>
          (wireToRequestType r).map fun rq => .GetPlayerInfo t rq
      | _, _ => none
  | some (.str "GET_ENVIRONMENT_INFO") =>
      match j.lookup "token" with
      | some (.str t) => some (.GetEnvironmentInfo t)
      | _ => none
  | some (.str "GET_GAME_STATISTICS") =>
      match j.lookup "token" with
      | some (.str t) => some (.GetGameStatistics t)
      | _ => none
  | some (.str "GET_AVAILABLE_BUFFS") =>
      match j.lookup "token" with
      | some (.str t) => some (.GetAvailableBuffs t)
      | _ => none
  | _ => none

/-- The field names the spec's schema table (sections 4.2 and 6) defines for
each outbound message kind: the `messageType` discriminant, `token` on
every kind, and the kind-specific fields.  This definition follows the
spec's words, to be compared with what `encodePerform` emits. -/
def specSchemaFields : String → List String
  | "PERFORM_MOVE" => ["messageType", "token", "direction", "distance"]
  | "PERFORM_TURN" => ["messageType", "token", "direction", "angle"]
  | "PERFORM_ATTACK" => ["messageType", "token"]
  | "PERFORM_SKILL" => ["messageType", "token", "skillName"]
  | "PERFORM_SELECT" => ["messageType", "token", "buffName"]
  | "GET_PLAYER_INFO" => ["messageType", "token", "request"]
  | "GET_ENVIRONMENT_INFO" => ["messageType", "token"]
  | "GET_GAME_STATISTICS" => ["messageType", "token"]
  | "GET_AVAILABLE_BUFFS" => ["messageType", "token"]
  | _ => []

/-- `const TRY_TIME: u32 = 3;` from `connection.rs`. -/
def TRY_TIME : Nat := 3

/-- `const CONNECT_SLEEP_SEC: u64 = 3;` from `connection.rs`. -/
def CONNECT_SLEEP_SEC : Nat := 3

/-- Observable outcome of one run of `AgentClient::try_connect`: which
attempt (0-based) produced the session, if any, how many `connect_async`
calls were made, and how many times the fixed delay was slept. -/
structure ConnectTrace where
  session : Option Nat
  attempts : Nat
  sleeps : Nat
  deriving Repr, DecidableEq

/-- Loop body of `AgentClient::try_connect` from `connection.rs`, unrolled on
the remaining `try_count`: attempt `i` (0-based, outcome given by the
environment `outcome`); on success return the stream at once, otherwise
sleep `CONNECT_SLEEP_SEC` seconds, decrement `try_count` and loop. -/
def tryConnectFrom (outcome : Nat → Bool) (i : Nat) : Nat → ConnectTrace
  | 0 => ⟨none, 0, 0⟩
  | n + 1 =>
      if outcome i then ⟨some i, 1, 0⟩
      else
        let r := tryConnectFrom outcome (i + 1) n
        ⟨r.session, r.attempts + 1, r.sleeps + 1⟩

/-- `AgentClient::try_connect(server, try_count)` from `connection.rs`,
started at the first attempt. -/
def tryConnect (outcome : Nat → Bool) (tryCount : Nat) : ConnectTrace :=
  tryConnectFrom outcome 0 tryCount

/-- `AgentClient::new` from `connection.rs`: `try_connect` with `TRY_TIME`;
`unwrap_or_else` panics with "Connection Error!" when no session came back.
A panic is modelled as `Except.error`. -/
def agentClientNew (outcome : Nat → Bool) : Except String Unit :=
  match (tryConnect outcome TRY_TIME).session with
  | some _ => .ok ()
  | none => .error "Connection Error!"

/-- `enum AgentMessage {}` from `connection.rs`: no inbound message variants
are defined yet. -/
inductive AgentMessage where

/-- `AgentClient::on_message` from `connection.rs`: after the debug log the
body is `unimplemented!()`, which panics on every inbound frame.  A panic
is modelled as `Except.error`. -/
def onMessage (_msg : String) : Except String (Option AgentMessage) :=
  .error "not implemented"

/-- State of the write half of the connection as the agent's operations see
it: how many `AgentClient::send` calls were made so far and which frames
the transport accepted, in order. -/
structure ClientState where
  sendCount : Nat
  transmitted : List PerformMessage
  deriving Repr, DecidableEq

/-- `AgentClient::send` from `connection.rs`: serialize the message and write
one frame; the transport's outcome for the n-th write is given by the
environment `oracle` (`none` is success, `some e` the send error).  On
success the frame is handed to the transport, on failure the error is
returned to the caller. -/
def clientSend (oracle : Nat → Option String) (st : ClientState)
    (msg : PerformMessage) : Except String Unit × ClientState :=
  match oracle st.sendCount with
  | none => (.ok (), ⟨st.sendCount + 1, st.transmitted ++ [msg]⟩)
  | some e => (.error e, ⟨st.sendCount + 1, st.transmitted⟩)

/-- `<Agent as ConnectionAPI>::send_perform_move` from `agent.rs`. -/
def sendPerformMove (oracle : Nat → Option String) (token : String)
    (st : ClientState) (direction : MoveDirection) (distance : F64) :
    Except String Unit × ClientState :=
  clientSend oracle st (.PerformMove token direction distance)

/-- `<Agent as ConnectionAPI>::send_perform_turn` from `agent.rs`. -/
def sendPerformTurn (oracle : Nat → Option String) (token : String)
    (st : ClientState) (direction : TurnDirection) (angle : Nat) :
    Except String Unit × ClientState :=
  clientSend oracle st (.PerformTurn token direction angle)

/-- `<Agent as ConnectionAPI>::send_perform_attack` from `agent.rs`. -/
def sendPerformAttack (oracle : Nat → Option String) (token : String)
    (st : ClientState) : Except String Unit × ClientState :=
  clientSend oracle st (.PerformAttack token)

/-- `<Agent as ConnectionAPI>::send_perform_skill` from `agent.rs`. -/
def sendPerformSkill (oracle : Nat → Option String) (token : String)
    (st : ClientState) (skill_name : SkillKind) :
    Except String Unit × ClientState :=
  clientSend oracle st (.PerformSkill token skill_name)

/-- `<Agent as ConnectionAPI>::send_perform_select` from `agent.rs`. -/
def sendPerformSelect (oracle : Nat → Option String) (token : String)
    (st : ClientState) (buff_name : BuffKind) :
    Except String Unit × ClientState :=
  clientSend oracle st (.PerformSelect token buff_name)

/-- `<Agent as ConnectionAPI>::send_get_player_info` from `agent.rs`: sends
`GET_PLAYER_INFO` with `request: OPPONENT`, then (if that send succeeded,
per the `?` operator) `GET_PLAYER_INFO` with `request: SELF`, both stamped
with the stored token. -/
def sendGetPlayerInfo (oracle : Nat → Option String) (token : String)
    (st : ClientState) : Except String Unit × ClientState :=
  match clientSend oracle st (.GetPlayerInfo token .Opponent) with
  | (.ok _, st1) => clientSend oracle st1 (.GetPlayerInfo token .TheSelf)
  | (.error e, st1) => (.error e, st1)

/-- `<Agent as ConnectionAPI>::send_get_environment_info` from `agent.rs`. -/
def sendGetEnvironmentInfo (oracle : Nat → Option String) (token : String)
    (st : ClientState) : Except String Unit × ClientState :=
  clientSend oracle st (.GetEnvironmentInfo token)

/-- `<Agent as ConnectionAPI>::send_get_game_statistics` from `agent.rs`. -/
def sendGetGameStatistics (oracle : Nat → Option String) (token : String)
    (st : ClientState) : Except String Unit × ClientState :=
  clientSend oracle st (.GetGameStatistics token)

/-- `<Agent as ConnectionAPI>::send_get_available_buffs` from `agent.rs`. -/
def sendGetAvailableBuffs (oracle : Nat → Option String) (token : String)
    (st : ClientState) : Except String Unit × ClientState :=
  clientSend oracle st (.GetAvailableBuffs token)

/-- Result of one `PlayerOperate` operation of `agent.rs`: the operation
always returns (`()` in Rust), leaving the client state and the list of
error-log lines it wrote. -/
structure OpResult where
  state : ClientState
  logged : List String
  deriving Repr, DecidableEq

/-- `unwrap_or_else` pattern shared by every `PlayerOperate` method of
`agent.rs`: a send error is written to the error log with the method's
message prefix and swallowed; success logs nothing. -/
def swallow (prefixMsg : String) : Except String Unit × ClientState → OpResult
  | (.ok _, st) => ⟨st, []⟩
  | (.error e, st) => ⟨st, [prefixMsg ++ e]⟩

/-- `<Agent as PlayerOperate>::move_forward` from `agent.rs`. -/
def moveForward (oracle : Nat → Option String) (token : String)
    (st : ClientState) (distance : F64) : OpResult :=
  swallow "Sending moving forward message failed: "
    (sendPerformMove oracle token st .Forth distance)

/-- `<Agent as PlayerOperate>::move_backward` from `agent.rs`. -/
def moveBackward (oracle : Nat → Option String) (token : String)
    (st : ClientState) (distance : F64) : OpResult :=
  swallow "Sending move backward message failed: "
    (sendPerformMove oracle token st .Back distance)

/-- `<Agent as PlayerOperate>::turn_clockwise` from `agent.rs`. -/
def turnClockwise (oracle : Nat → Option String) (token : String)
    (st : ClientState) (angle : Nat) : OpResult :=
  swallow "Sending turning clockwise message failed: "
    (sendPerformTurn oracle token st .Clockwise angle)

/-- `<Agent as PlayerOperate>::turn_counter_clockwise` from `agent.rs`. -/
def turnCounterClockwise (oracle : Nat → Option String) (token : String)
    (st : ClientState) (angle : Nat) : OpResult :=
  swallow "Sending turning counter-clockwise message failed: "
    (sendPerformTurn oracle token st .CounterClockwise angle)

/-- `<Agent as PlayerOperate>::attack` from `agent.rs`. -/
def attack (oracle : Nat → Option String) (token : String)
    (st : ClientState) : OpResult :=
  swallow "Sending attack message failed: "
    (sendPerformAttack oracle token st)

/-- `<Agent as PlayerOperate>::use_skill` from `agent.rs` (the log line
interpolates the skill's display form before the error). -/
def useSkill (oracle : Nat → Option String) (token : String)
    (st : ClientState) (skill : SkillKind) : OpResult :=
  swallow ("Sending performing skill \"" ++ skill.wire ++ "\" message failed: ")
    (sendPerformSkill oracle token st skill)

/-- `<Agent as PlayerOperate>::select_buff` from `agent.rs` (the log line
interpolates the buff's display form before the error). -/
def selectBuff (oracle : Nat → Option String) (token : String)
    (st : ClientState) (buff : BuffKind) : OpResult :=
  swallow ("Sending selecting buff \"" ++ buff.wire ++ "\" message failed: ")
    (sendPerformSelect oracle token st buff)

/-- Log lines a `PlayerOperate` method with message prefix `pre` writes when
the transport's outcome for its single send is `oracle st.sendCount`:
nothing on success, one error line on failure. -/
def expectedLog (oracle : Nat → Option String) (st : ClientState)
    (pre : String) : List String :=
  match oracle st.sendCount with
  | none => []
  | some e => [pre ++ e]

/-- Connect environment in which the first two attempts fail and every
attempt from the third on succeeds. -/
def failTwiceOutcome : Nat → Bool := fun i => decide (2 ≤ i)

/-- Transport environment in which every send succeeds. -/
def okOracle : Nat → Option String := fun _ => none

/-- Helper: when every connect attempt fails, the `try_connect` loop makes
exactly as many attempts (and sleeps) as the remaining `try_count` and
yields no session. -/
theorem tryConnectFrom_all_fail (outcome : Nat → Bool)
    (h : ∀ i, outcome i = false) (i n : Nat) :
    tryConnectFrom outcome i n = ⟨none, n, n⟩ := by
  induction n generalizing i with
  | zero => rfl
  | succ n ih => simp [tryConnectFrom, h, ih]

/-- C1: encoding `PerformMessage::PerformMove` with direction `Forth`,
distance `3.5` and token `"abc"` produces exactly the JSON object
`messageType: "PERFORM_MOVE", token: "abc", direction: "FORTH",
distance: 3.5` — the discriminant comes from the variant tag, the
direction token is the fixed string `"FORTH"`, and no field outside this
set is emitted. -/
theorem encode_perform_move_abc :
    encodePerform (.PerformMove "abc" .Forth (7 / 2)) =
      .obj [("messageType", .str "PERFORM_MOVE"), ("token", .str "abc"),
            ("direction", .str "FORTH"), ("distance", .num (7 / 2))] := rfl

/-- C2: for every representable outbound command value `x`, decoding the
encoded wire frame yields `x` back (`decode (encode x) = some x`, against
the decoder modelled from the spec's schema table), and the encoding emits
exactly the fields the schema defines for that message kind, no others. -/
theorem decode_encode_roundtrip (x : PerformMessage) :
    decodePerform (encodePerform x) = some x ∧
    (encodePerform x).objKeys = specSchemaFields x.discriminant := by
  constructor
  · cases x with
    | PerformMove t d dist => cases d <;> rfl
    | PerformTurn t d a => cases d <;> rfl
    | PerformAttack t => rfl
    | PerformSkill t s => cases s <;> rfl
    | PerformSelect t b => cases b <;> rfl
    | GetPlayerInfo t r => cases r <;> rfl
    | GetEnvironmentInfo t => rfl
    | GetGameStatistics t => rfl
    | GetAvailableBuffs t => rfl
  · cases x <;> rfl

/-- C3: against a server that rejects the first two connection attempts and
accepts the third, `try_connect` with the default retry limit `TRY_TIME = 3`
returns the session established on the third attempt (0-based attempt 2),
having made 3 attempts and slept the fixed `CONNECT_SLEEP_SEC = 3` second
delay exactly twice, once after each failed attempt. -/
theorem connect_succeeds_third_attempt :
    CONNECT_SLEEP_SEC = 3 ∧
    tryConnect failTwiceOutcome TRY_TIME = ⟨some 2, 3, 2⟩ := ⟨rfl, rfl⟩

/-- C4: against a server where every connection attempt fails, `try_connect`
makes exactly `TRY_TIME = 3` attempts, returns no session, and
`AgentClient::new` panics with "Connection Error!" (modelled as
`Except.error`) instead of returning a client. -/
theorem connect_all_fail_panics (outcome : Nat → Bool)
    (h : ∀ i, outcome i = false) :
    (tryConnect outcome TRY_TIME).session = none ∧
    (tryConnect outcome TRY_TIME).attempts = TRY_TIME ∧
    agentClientNew outcome = .error "Connection Error!" := by
  have e : tryConnect outcome TRY_TIME = ⟨none, 3, 3⟩ :=
    tryConnectFrom_all_fail outcome h 0 3
  refine ⟨by rw [e], by rw [e]; rfl, ?_⟩
  rw [agentClientNew, e]

/-- Witness for C4 at the environment in which every attempt fails. -/
theorem connect_all_fail_panics_witness :
    (tryConnect (fun _ => false) TRY_TIME).session = none ∧
    (tryConnect (fun _ => false) TRY_TIME).attempts = TRY_TIME ∧
    agentClientNew (fun _ => false) = .error "Connection Error!" :=
  connect_all_fail_panics (fun _ => false) (fun _ => rfl)

/-- C5: every `PlayerOperate` outbound command operation (`move_forward`,
`move_backward`, `turn_clockwise`, `turn_counter_clockwise`, `attack`,
`use_skill`, `select_buff`) returns normally whatever the transport
outcome (each yields an `OpResult`, with no error channel to the caller):
the operation makes exactly one send attempt — no automatic retry — and a
send failure is written to the error log with the operation's message
prefix while a success logs nothing. -/
theorem player_ops_swallow_send_errors (oracle : Nat → Option String)
    (token : String) (st : ClientState) (distance : F64) (angle : Nat)
    (skill : SkillKind) (buff : BuffKind) :
    ((moveForward oracle token st distance).state.sendCount = st.sendCount + 1 ∧
     (moveForward oracle token st distance).logged =
       expectedLog oracle st "Sending moving forward message failed: ") ∧
    ((moveBackward oracle token st distance).state.sendCount = st.sendCount + 1 ∧
     (moveBackward oracle token st distance).logged =
       expectedLog oracle st "Sending move backward message failed: ") ∧
    ((turnClockwise oracle token st angle).state.sendCount = st.sendCount + 1 ∧
     (turnClockwise oracle token st angle).logged =
       expectedLog oracle st "Sending turning clockwise message failed: ") ∧
    ((turnCounterClockwise oracle token st angle).state.sendCount = st.sendCount + 1 ∧
     (turnCounterClockwise oracle token st angle).logged =
       expectedLog oracle st "Sending turning counter-clockwise message failed: ") ∧
    ((attack oracle token st).state.sendCount = st.sendCount + 1 ∧
     (attack oracle token st).logged =
       expectedLog oracle st "Sending attack message failed: ") ∧
    ((useSkill oracle token st skill).state.sendCount = st.sendCount + 1 ∧
     (useSkill oracle token st skill).logged =
       expectedLog oracle st
         ("Sending performing skill \"" ++ skill.wire ++ "\" message failed: ")) ∧
    ((selectBuff oracle token st buff).state.sendCount = st.sendCount + 1 ∧
     (selectBuff oracle token st buff).logged =
       expectedLog oracle st
         ("Sending selecting buff \"" ++ buff.wire ++ "\" message failed: ")) := by
  cases h : oracle st.sendCount <;>
    simp [moveForward, moveBackward, turnClockwise, turnCounterClockwise,
      attack, useSkill, selectBuff, sendPerformMove, sendPerformTurn,
      sendPerformAttack, sendPerformSkill, sendPerformSelect, clientSend,
      swallow, expectedLog, h]

/-- C6: one call to `send_get_player_info` hands exactly two
`GET_PLAYER_INFO` frames to the transport, one with request `OPPONENT` and
one with request `SELF`, both stamped with the agent's stored token, and
returns ok; every other `ConnectionAPI` request operation hands exactly
one frame (also token-stamped) to the transport per call. -/
theorem get_player_info_sends_two (token : String) (st : ClientState)
    (direction : MoveDirection) (turn : TurnDirection) (distance : F64)
    (angle : Nat) (skill : SkillKind) (buff : BuffKind) :
    ((sendGetPlayerInfo okOracle token st).2.transmitted =
       st.transmitted ++ [.GetPlayerInfo token .Opponent,
                          .GetPlayerInfo token .TheSelf] ∧
     (sendGetPlayerInfo okOracle token st).1 = .ok ()) ∧
    (sendPerformMove okOracle token st direction distance).2.transmitted =
      st.transmitted ++ [.PerformMove token direction distance] ∧
    (sendPerformTurn okOracle token st turn angle).2.transmitted =
      st.transmitted ++ [.PerformTurn token turn angle] ∧
    (sendPerformAttack okOracle token st).2.transmitted =
      st.transmitted ++ [.PerformAttack token] ∧
    (sendPerformSkill okOracle token st skill).2.transmitted =
      st.transmitted ++ [.PerformSkill token skill] ∧
    (sendPerformSelect okOracle token st buff).2.transmitted =
      st.transmitted ++ [.PerformSelect token buff] ∧
    (sendGetEnvironmentInfo okOracle token st).2.transmitted =
      st.transmitted ++ [.GetEnvironmentInfo token] ∧
    (sendGetGameStatistics okOracle token st).2.transmitted =
      st.transmitted ++ [.GetGameStatistics token] ∧
    (sendGetAvailableBuffs okOracle token st).2.transmitted =
      st.transmitted ++ [.GetAvailableBuffs token] := by
  simp [sendGetPlayerInfo, sendPerformMove, sendPerformTurn,
    sendPerformAttack, sendPerformSkill, sendPerformSelect,
    sendGetEnvironmentInfo, sendGetGameStatistics, sendGetAvailableBuffs,
    clientSend, okOracle]

/-- C7 (code bug): the claim says a malformed inbound frame makes dispatch
log a `SchemaError` and the receive loop continue; in the code
`AgentClient::on_message` is `unimplemented!()`, which panics (modelled as
`Except.error`) on every inbound frame, malformed or not. -/
theorem on_message_panics_on_any_frame :
    onMessage "\x7b\"messageType\":\"UNKNOWN\"\x7d" = .error "not implemented" ∧
    onMessage "\x7b\"messageType\":\"PERFORM_MOVE\"\x7d" =
      .error "not implemented" := ⟨rfl, rfl⟩

/-- C8: for floating positions `p, q`, the code's equality holds exactly when
`|p.x - q.x| < EPSILON` and `|p.y - q.y| < EPSILON` (with `EPSILON = 1e-6`),
and the `angle` field has no influence on the comparison. -/
theorem position_f64_eq_iff (p q : Position F64) :
    (Position.eqF p q = true ↔
       |p.x - q.x| < EPSILON ∧ |p.y - q.y| < EPSILON) ∧
    ∀ a b : F64, Position.eqF ⟨p.x, p.y, a⟩ ⟨q.x, q.y, b⟩ = Position.eqF p q := by
  constructor
  · simp [Position.eqF]
  · intro a b
    simp [Position.eqF]

/-- C9: a `BuffKind` and a `SkillKind` with the same variant name compare
equal under the code's one-directional `PartialEq<SkillKind> for BuffKind`
(the reverse comparison is not defined by the code and has no counterpart
in this development). -/
theorem buff_eq_skill_same_name (b : BuffKind) (s : SkillKind)
    (h : b.variantName = s.variantName) : b.eqSkill s = true := by
  cases b <;> cases s <;> revert h <;> decide

/-- Witness for C9 at the `Missile` buff/skill pair. -/
theorem buff_eq_skill_same_name_witness :
    BuffKind.Missile.variantName = SkillKind.Missile.variantName ∧
    BuffKind.Missile.eqSkill SkillKind.Missile = true :=
  ⟨rfl, buff_eq_skill_same_name BuffKind.Missile SkillKind.Missile rfl⟩

/-- C10: the floating-position equality is reflexive and symmetric but not
transitive: with x-coordinates `0`, `0.9e-6` and `1.8e-6` (equal `y`),
the first equals the second and the second the third, yet the first does
not equal the third — so it is not an equivalence relation. -/
theorem position_f64_eq_not_transitive :
    (∀ p : Position F64, Position.eqF p p = true) ∧
    (∀ p q : Position F64, Position.eqF p q = Position.eqF q p) ∧
    Position.eqF ⟨0, 0, 0⟩ ⟨9 / 10000000, 0, 0⟩ = true ∧
    Position.eqF ⟨9 / 10000000, 0, 0⟩ ⟨18 / 10000000, 0, 0⟩ = true ∧
    Position.eqF ⟨0, 0, 0⟩ ⟨18 / 10000000, 0, 0⟩ = false := by
  refine ⟨?_, ?_, by norm_num [Position.eqF, EPSILON, abs_lt, le_abs],
    by norm_num [Position.eqF, EPSILON, abs_lt, le_abs],
    by norm_num [Position.eqF, EPSILON, abs_lt, le_abs]⟩
  · intro p
    simp [Position.eqF, EPSILON]
  · intro p q
    simp [Position.eqF, abs_sub_comm]

end ThuaiAgent
